import Mathlib

set_option autoImplicit false
set_option maxRecDepth 4000

/-!
Verification of the screenshot-service core against its design document.

The Python sources are shallowly embedded: environment variables become
explicit record fields, `requests` calls become oracle functions supplied as
parameters, and exceptions become an `Except` result over a small error type
mirroring the exception classes actually raised (`ValueError`,
`requests.exceptions.RequestException`, bare `Exception`).  Each definition
follows one Python function; deviations forced by the embedding (Unicode
classes, provider-generated message text) are noted in the doc comments.
-/

namespace ScreenshotService

/-- Python truthiness of an optional string (`if s:`): `None` and the empty
string are falsy. -/
def truthy : Option String → Bool
  | none => false
  | some s => !s.isEmpty

/-- Python `a or b or ...` over optional strings: first truthy value, else
`none`. -/
def pyOrChain : List (Option String) → Option String
  | [] => none
  | x :: rest =>
    match x with
    | some s => if s.isEmpty then pyOrChain rest else some s
    | none => pyOrChain rest

/-- Drop trailing characters satisfying `p` (helper for Python `rstrip`). -/
def dropTrailing (p : Char → Bool) (l : List Char) : List Char :=
  (l.reverse.dropWhile p).reverse

/-- Python `s.rstrip(c)` for a single character. -/
def rstripChar (s : String) (c : Char) : String :=
  String.mk (dropTrailing (fun x => x = c) s.toList)

/-- Python `s.lstrip(c)` for a single character. -/
def lstripChar (s : String) (c : Char) : String :=
  String.mk (s.toList.dropWhile (fun x => x = c))

/-- Python `s.strip(c)` for a single character. -/
def stripChar (s : String) (c : Char) : String :=
  lstripChar (rstripChar s c) c

/-- Occurrence of `needle` as a contiguous sublist of `hay` (structural
recursion, so that concrete instances evaluate). -/
def containsSubList (hay needle : List Char) : Bool :=
  match hay with
  | [] => needle.isEmpty
  | _ :: rest => needle.isPrefixOf hay || containsSubList rest needle

/-- Python `needle in hay` for strings (membership as substring). -/
def strContains (hay needle : String) : Bool :=
  containsSubList hay.toList needle.toList

/-- Worker for Python `str.replace`: replace non-overlapping occurrences of
`pat` left to right.  `fuel` bounds the recursion structurally; it is called
with the length of the list, which the remaining list never exceeds. -/
def replaceListAux (pat repl : List Char) : Nat → List Char → List Char
  | 0, l => l
  | _ + 1, [] => []
  | fuel + 1, c :: rest =>
    if !pat.isEmpty && pat.isPrefixOf (c :: rest) then
      repl ++ replaceListAux pat repl fuel ((c :: rest).drop pat.length)
    else c :: replaceListAux pat repl fuel rest

/-- Python `s.replace(pat, repl)` for a non-empty pattern (every pattern the
embedded code replaces is non-empty; an empty pattern is returned
unchanged). -/
def pyReplace (s pat repl : String) : String :=
  if pat.isEmpty then s
  else String.mk (replaceListAux pat.toList repl.toList s.toList.length s.toList)

/-- Python `s.lower()` (character-wise). -/
def pyLower (s : String) : String :=
  String.mk (s.toList.map Char.toLower)

/-- Python `s.strip()` with no argument: drop leading and trailing
whitespace (ASCII whitespace classes; Python also strips some Unicode
spaces). -/
def pyStrip (s : String) : String :=
  String.mk (dropTrailing Char.isWhitespace (s.toList.dropWhile Char.isWhitespace))

/-- Python `s.startswith(pre)`. -/
def pyStartsWith (s pre : String) : Bool :=
  pre.toList.isPrefixOf s.toList

/-- `needle` occurs as a contiguous substring of `hay`. -/
def ContainsSub (hay needle : String) : Prop :=
  ∃ pre post, hay = pre ++ (needle ++ post)

/-- The exception classes raised by the embedded code. -/
inductive PyErr where
  | valueError (s : String)
  | requestError (s : String)
  | exception (s : String)
  deriving DecidableEq, Repr

/-- `str(e)`: the message carried by an exception. -/
def PyErr.msg : PyErr → String
  | .valueError s => s
  | .requestError s => s
  | .exception s => s

/-- A Python `dict` literal / item assignment, as an insertion-ordered
association list: assigning an existing key overwrites its value in place,
a new key is appended.  This is exactly CPython's behaviour for duplicate
keys in a `dict` literal (the later value wins, one entry remains). -/
def dictInsert (d : List (String × String)) (k v : String) : List (String × String) :=
  if d.any (fun kv => kv.1 = k) then
    d.map (fun kv => if kv.1 = k then (k, v) else kv)
  else d ++ [(k, v)]

/-- Python `d.get(k)` on the association-list model of a dict. -/
def dictGet (d : List (String × String)) (k : String) : Option String :=
  (d.find? (fun kv => kv.1 = k)).map (fun kv => kv.2)

/-! ### ScreenshotOne capture (`src/screenshots/capture.py`) -/

/-- The environment variables read by `capture.py`. -/
structure Env where
  screenshotoneAccessKey : Option String
  screenshotoneProxy : Option String
  webUnlockerProxy : Option String
  deriving Repr

/-- The JSON body of a ScreenshotOne response, as the fields `capture.py`
reads from it.  `truthyDict` is the Python truthiness of the parsed dict
(`{}` is falsy); `dumped` stands for the `json.dumps`/`str` rendering used
in error messages. -/
structure RespJson where
  truthyDict : Bool
  screenshot : Option String
  screenshotUrl : Option String
  cacheUrl : Option String
  errorMessage : Option String
  returnedStatusCode : Option String
  errorCode : Option String
  dumped : String
  deriving Repr

/-- Outcome of `requests.get('https://api.screenshotone.com/take', params=...)`:
either the call raised, or it returned a response with a status code, an
optional parsed JSON body (`none` when `response.json()` raises), and the
response text. -/
inductive HttpOutcome where
  | raised (s : String)
  | response (status : Nat) (json : Option RespJson) (text : String)

/-- The `params` dict literal of `_call_screenshotone_api`, built with dict
semantics (the duplicated `fail_if_content_contains` key is overwritten),
plus the conditional `params['proxy'] = proxy` assignment. -/
def screenshotoneParams (accessKey url : String) (proxy : Option String) :
    List (String × String) :=
  let d := dictInsert [] "access_key" accessKey
  let d := dictInsert d "url" url
  let d := dictInsert d "response_type" "json"
  let d := dictInsert d "format" "jpeg"
  let d := dictInsert d "image_quality" "70"
  let d := dictInsert d "cache" "true"
  let d := dictInsert d "cache_ttl" "2505600"
  let d := dictInsert d "fail_if_content_contains" "Verify you are human"
  let d := dictInsert d "fail_if_content_contains" "blocked"
  if truthy proxy then dictInsert d "proxy" (proxy.getD "") else d

/-- The error message `_call_screenshotone_api` builds for a non-200
response before raising. -/
def apiNon200Msg (status : Nat) (json : Option RespJson) (text : String) : String :=
  let base := "API Error " ++ Nat.repr status
  match json with
  | some j =>
    if j.truthyDict then
      let m := base ++ (match j.errorMessage with
        | some em => ": " ++ em
        | none => "")
      let m := m ++ (match j.returnedStatusCode with
        | some rc => " (target site returned " ++ rc ++ ")"
        | none => "")
      let m := m ++ (match j.errorCode with
        | some ec => " [Error Code: " ++ ec ++ "]"
        | none => "")
      m ++ "\nFull error details: " ++ j.dumped
    else base ++ ": " ++ text.take 500
  | none => base ++ ": " ++ text.take 500

/-- On a non-200 response the code first calls `response.raise_for_status()`
(which raises `HTTPError`, a `RequestException`, for 4xx/5xx with requests'
own message — modelled here schematically) and otherwise raises a
`RequestException` carrying the message built by `apiNon200Msg`. -/
def non200Err (status : Nat) (builtMsg : String) : PyErr :=
  if 400 ≤ status then
    .requestError ("HTTP Error " ++ Nat.repr status ++ " for url: https://api.screenshotone.com/take")
  else .requestError builtMsg

/-- Message of the `ValueError` raised when `response.json()` fails on a 200
response (line 103 re-parses and lets the decode error propagate); the
CPython decoder message is abstracted. -/
def jsonDecodeErrMsg (text : String) : String :=
  "JSON decode error for response body: " ++ text.take 500

/-- The params of the HTTP request `_call_screenshotone_api` issues: the
`proxy` argument falls back to the `SCREENSHOTONE_PROXY` environment variable
when it is `None` (lines 44-45). -/
def screenshotoneRequest (env : Env) (url : String) (proxy : Option String) :
    List (String × String) :=
  screenshotoneParams (env.screenshotoneAccessKey.getD "") url
    (match proxy with
      | none => env.screenshotoneProxy
      | some p => some p)

/-- Response handling of `_call_screenshotone_api` (lines 74-124), once the
request params are fixed. -/
def screenshotoneResult (http : List (String × String) → HttpOutcome)
    (params : List (String × String)) : Except PyErr String :=
  match http params with
  | .raised m => .error (.requestError m)
  | .response status json text =>
    if status ≠ 200 then
      .error (non200Err status (apiNon200Msg status json text))
    else
      match json with
      | none => .error (.valueError (jsonDecodeErrMsg text))
      | some j =>
        match pyOrChain [j.screenshot, j.screenshotUrl, j.cacheUrl] with
        | none => .error (.valueError ("No screenshot URL in response: " ++ j.dumped))
        | some u => .ok u

/-- `_call_screenshotone_api(url, proxy)`.  Returns the screenshot URL or the
raised exception, paired with the params of the HTTP request actually issued
(`none` when the function failed before calling the provider, i.e. on the
missing-access-key check). -/
def callScreenshotoneApi (env : Env) (http : List (String × String) → HttpOutcome)
    (url : String) (proxy : Option String) :
    Except PyErr String × Option (List (String × String)) :=
  if !truthy env.screenshotoneAccessKey then
    (.error (.valueError "SCREENSHOTONE_ACCESS_KEY not found in environment variables"), none)
  else
    (screenshotoneResult http (screenshotoneRequest env url proxy),
      some (screenshotoneRequest env url proxy))

/-- `get_screenshot_url` is a direct wrapper around `_call_screenshotone_api`. -/
def getScreenshotUrl (env : Env) (http : List (String × String) → HttpOutcome)
    (url : String) (proxy : Option String) :
    Except PyErr String × Option (List (String × String)) :=
  callScreenshotoneApi env http url proxy

/-- Which proxy tier a call to `get_screenshot_url` belongs to in the retry
orchestrator (`direct` = no tiering, the caller-supplied proxy path). -/
inductive Tier where
  | basic
  | advanced
  | direct
  deriving DecidableEq, Repr

/-- One invocation of `get_screenshot_url`: the tier, the `proxy` argument
passed in, and the params of the HTTP request it issued (if any). -/
structure TierCall where
  tier : Tier
  proxyArg : Option String
  httpParams : Option (List (String × String))
  deriving DecidableEq, Repr

/-- `simple_proxy + f":{random_number}" if simple_proxy else None`:
the basic-tier proxy argument, with the random port suffix. -/
def basicProxyWithRandom (env : Env) (randomNumber : Nat) : Option String :=
  if truthy env.screenshotoneProxy then
    some (env.screenshotoneProxy.getD "" ++ ":" ++ Nat.repr randomNumber)
  else none

/-- The defensive check after each attempt in `get_screenshot_url_with_retry`:
`if not result or not isinstance(result, str) or not result.strip()` raises a
`ValueError` (inside the `try`, hence treated as an attempt failure). -/
def checkUrlResult (label : String) (r : Except PyErr String) : Except PyErr String :=
  match r with
  | .ok s =>
    if (pyStrip s).isEmpty then
      .error (.valueError ("Invalid screenshot URL returned from " ++ label ++ ": " ++ s))
    else .ok s
  | .error e => .error e

/-- The basic-tier attempt of `get_screenshot_url_with_retry` (lines
289-307): build the random-suffixed proxy and call `get_screenshot_url`. -/
def basicAttempt (env : Env) (http : List (String × String) → HttpOutcome)
    (url : String) (randomNumber : Nat) : Except PyErr String × TierCall :=
  (checkUrlResult "basic proxy"
      (getScreenshotUrl env http url (basicProxyWithRandom env randomNumber)).1,
    ⟨.basic, basicProxyWithRandom env randomNumber,
      (getScreenshotUrl env http url (basicProxyWithRandom env randomNumber)).2⟩)

/-- The advanced-tier (WEB_UNLOCKER_PROXY) attempt of
`get_screenshot_url_with_retry` (lines 321-330). -/
def advancedAttempt (env : Env) (http : List (String × String) → HttpOutcome)
    (url : String) (better : String) : Except PyErr String × TierCall :=
  (checkUrlResult "WEB_UNLOCKER_PROXY" (getScreenshotUrl env http url (some better)).1,
    ⟨.advanced, some better, (getScreenshotUrl env http url (some better)).2⟩)

/-- `get_screenshot_url_with_retry(url)`.  `randomNumber` stands for the
value of `random.randint(1, 10)` drawn for this request.  The second
component records every `get_screenshot_url` invocation, in order. -/
def getScreenshotUrlWithRetry (env : Env) (http : List (String × String) → HttpOutcome)
    (url : String) (randomNumber : Nat) : Except PyErr String × List TierCall :=
  match (basicAttempt env http url randomNumber).1 with
  | .ok s => (.ok s, [(basicAttempt env http url randomNumber).2])
  | .error e =>
    if !truthy env.webUnlockerProxy then
      (.error (.exception ("Simple proxy failed and WEB_UNLOCKER_PROXY not found. Original error: "
        ++ e.msg)), [(basicAttempt env http url randomNumber).2])
    else
      match (advancedAttempt env http url (env.webUnlockerProxy.getD "")).1 with
      | .ok s =>
        (.ok s, [(basicAttempt env http url randomNumber).2,
          (advancedAttempt env http url (env.webUnlockerProxy.getD "")).2])
      | .error e2 =>
        (.error (.exception ("Both simple and advanced proxy attempts failed. Simple proxy error: "
          ++ e.msg ++ ". Advanced proxy error: " ++ e2.msg)),
          [(basicAttempt env http url randomNumber).2,
            (advancedAttempt env http url (env.webUnlockerProxy.getD "")).2])

/-- `capture_screenshot_url(url, proxy, use_retry)` from
`src/api/services/screenshot_service.py`: retry orchestration when
`use_retry` and no explicit proxy, otherwise a direct call. -/
def captureScreenshotUrl (env : Env) (http : List (String × String) → HttpOutcome)
    (url : String) (proxy : Option String) (useRetry : Bool) (randomNumber : Nat) :
    Except PyErr String × List TierCall :=
  if useRetry && proxy.isNone then
    getScreenshotUrlWithRetry env http url randomNumber
  else
    ((getScreenshotUrl env http url proxy).1,
      [⟨.direct, proxy, (getScreenshotUrl env http url proxy).2⟩])

/-! ### ZenRows capture (`src/api/services/zenrows_service.py`) -/

/-- The environment variable read by the ZenRows service. -/
structure ZenEnv where
  zenrowsApiKey : Option String
  deriving Repr

/-- Outcome of `requests.get('https://api.zenrows.com/v1/', ...)`: raised, or
a response with status code, body bytes and decoded text. -/
inductive ZenHttp where
  | raised (s : String)
  | response (status : Nat) (content : List Nat) (text : String)

/-- JPEG magic bytes `FF D8 FF`. -/
def jpegMagic : List Nat := [0xff, 0xd8, 0xff]

/-- PNG magic bytes `89 50 4E 47` (`\x89PNG`). -/
def pngMagic : List Nat := [0x89, 0x50, 0x4e, 0x47]

/-- The byte validation of lines 83-101 of `capture_screenshot_with_zenrows`:
an empty body is rejected, a body that is neither JPEG nor PNG and starts
with the byte of a curly brace (0x7b) or of a less-than sign (0x3c) is
rejected with the embedded response text, anything else (the two magics
included) only logs a warning and is returned.  `startswith` on
`response.content[:20]` equals a prefix test on the whole content because
both magics are at most 20 bytes long. -/
def zenValidate (content : List Nat) (text : String) : Except PyErr (List Nat) :=
  if content.isEmpty then
    .error (.valueError "ZenRows API returned empty response")
  else if !(jpegMagic.isPrefixOf content || pngMagic.isPrefixOf content)
      && ((content.head? == some 0x7b) || (content.head? == some 0x3c)) then
    .error (.valueError ("ZenRows API returned an error instead of an image: " ++ text.take 500))
  else .ok content

/-- Status handling of a ZenRows response (lines 72-77) followed by byte
validation. -/
def zenResponseResult (status : Nat) (content : List Nat) (text : String) :
    Except PyErr (List Nat) :=
  if status ≠ 200 then
    .error (.requestError ("ZenRows API request failed with status " ++ Nat.repr status
      ++ ": " ++ (if text.isEmpty then "No error message provided" else text.take 500)))
  else zenValidate content text

/-- `capture_screenshot_with_zenrows(url, wait_for, wait)`, restricted to its
observable result: the request parameters only shape the oracle response, so
they are absorbed into `http`. -/
def captureScreenshotWithZenrows (env : ZenEnv) (http : ZenHttp) :
    Except PyErr (List Nat) :=
  if !truthy env.zenrowsApiKey then
    .error (.valueError "ZENROWS_API_KEY not found in environment variables")
  else
    match http with
    | .raised m => .error (.requestError ("ZenRows API request failed: " ++ m))
    | .response status content text => zenResponseResult status content text

/-! ### Cloudinary upload (`src/screenshots/upload.py`) -/

/-- The Cloudinary credential environment variables. -/
structure CloudinaryEnv where
  cloudName : Option String
  apiKey : Option String
  apiSecret : Option String
  deriving Repr

/-- The argument record of one `cloudinary.uploader.upload` call:
`upload_options` only receives `folder`/`public_id` when truthy. -/
structure UploadCall where
  imageBytes : List Nat
  folderOpt : Option String
  publicIdOpt : Option String
  deriving DecidableEq, Repr

/-- Outcome of `cloudinary.uploader.upload`: raised, or a result dict with
optional `secure_url` and `url` fields. -/
inductive UploaderOutcome where
  | raised (s : String)
  | result (secureUrl : Option String) (url : Option String)

/-- `_validate_cloudinary_config()`. -/
def validateCloudinaryConfig (cenv : CloudinaryEnv) : Except PyErr Unit :=
  if !truthy cenv.cloudName then
    .error (.valueError "CLOUDINARY_CLOUD_NAME not found in environment variables")
  else if !truthy cenv.apiKey then
    .error (.valueError "CLOUDINARY_API_KEY not found in environment variables")
  else if !truthy cenv.apiSecret then
    .error (.valueError "CLOUDINARY_API_SECRET not found in environment variables")
  else .ok ()

/-- The `upload_options` record handed to `cloudinary.uploader.upload`:
`folder`/`public_id` only enter the options when truthy. -/
def uploadCallOf (imageBytes : List Nat) (folder publicId : Option String) : UploadCall :=
  ⟨imageBytes, if truthy folder then folder else none,
    if truthy publicId then publicId else none⟩

/-- `upload_image_from_bytes(image_bytes, folder, public_id)`.  The second
component records the `cloudinary.uploader.upload` calls issued. -/
def uploadImageFromBytes (cenv : CloudinaryEnv) (uploader : UploadCall → UploaderOutcome)
    (imageBytes : List Nat) (folder publicId : Option String) :
    Except PyErr String × List UploadCall :=
  match validateCloudinaryConfig cenv with
  | .error e => (.error e, [])
  | .ok _ =>
    match uploader (uploadCallOf imageBytes folder publicId) with
    | .raised m =>
      (.error (.exception ("Cloudinary upload failed: " ++ m)),
        [uploadCallOf imageBytes folder publicId])
    | .result su u =>
      match pyOrChain [su, u] with
      | some theUrl => (.ok theUrl, [uploadCallOf imageBytes folder publicId])
      | none =>
        (.error (.exception "Cloudinary upload failed: Cloudinary upload succeeded but no URL returned"),
          [uploadCallOf imageBytes folder publicId])

/-- The slug both relay flows derive from a source URL:
`url.replace('https://', '').replace('http://', '').replace('/', '_')[:100]`. -/
def pySlug (url : String) : String :=
  (pyReplace (pyReplace (pyReplace url "https://" "") "http://" "") "/" "_").take 100

/-- `capture_and_upload_with_zenrows(url, wait_for, wait, folder)`: capture,
then upload under the deterministic slug of the source URL. -/
def captureAndUploadWithZenrows (zenv : ZenEnv) (cenv : CloudinaryEnv)
    (http : ZenHttp) (uploader : UploadCall → UploaderOutcome)
    (url : String) (folder : Option String) :
    Except PyErr String × List UploadCall :=
  match captureScreenshotWithZenrows zenv http with
  | .error e => (.error e, [])
  | .ok imageBytes =>
    uploadImageFromBytes cenv uploader imageBytes folder (some (pySlug url))

/-- Outcome of the `requests.get(image_url, timeout=30)` download in
`upload_screenshot_from_url`. -/
inductive DownloadOutcome where
  | raised (s : String)
  | response (status : Nat) (content : List Nat)

/-- The folder resolution of `upload_screenshot_from_url`:
`folder` when truthy, else `default_folder or os.getenv("CLOUDINARY_FOLDER")`. -/
def resolvedUploadFolder (cloudinaryFolderEnv folder defaultFolder : Option String) :
    Option String :=
  if truthy folder then folder else pyOrChain [defaultFolder, cloudinaryFolderEnv]

/-- `upload_screenshot_from_url(image_url, folder, default_folder)`:
fetch-then-relay.  `cloudinaryFolderEnv` is `os.getenv("CLOUDINARY_FOLDER")`;
`raise_for_status` raises for status ≥ 400 (message abstracted); upload
failures are re-wrapped by the enclosing `except Exception` handler. -/
def uploadScreenshotFromUrl (cenv : CloudinaryEnv) (cloudinaryFolderEnv : Option String)
    (download : DownloadOutcome) (uploader : UploadCall → UploaderOutcome)
    (imageUrl : String) (folder defaultFolder : Option String) :
    Except PyErr String × List UploadCall :=
  match validateCloudinaryConfig cenv with
  | .error e => (.error e, [])
  | .ok _ =>
    match download with
    | .raised m => (.error (.requestError ("Error downloading image: " ++ m)), [])
    | .response status content =>
      if 400 ≤ status then
        (.error (.requestError ("Error downloading image: HTTP Error " ++ Nat.repr status
          ++ " for url: " ++ imageUrl)), [])
      else
        match (uploadImageFromBytes cenv uploader content
            (resolvedUploadFolder cloudinaryFolderEnv folder defaultFolder)
            (some (pySlug imageUrl))).1 with
        | .ok u =>
          (.ok u, (uploadImageFromBytes cenv uploader content
            (resolvedUploadFolder cloudinaryFolderEnv folder defaultFolder)
            (some (pySlug imageUrl))).2)
        | .error e =>
          (.error (.exception ("Cloudinary upload failed: " ++ e.msg)),
            (uploadImageFromBytes cenv uploader content
              (resolvedUploadFolder cloudinaryFolderEnv folder defaultFolder)
              (some (pySlug imageUrl))).2)

/-! ### Storage backends (`src/screenshots/storage.py`) -/

/-- `_sanitize_key(key)`: spaces to underscores, drop characters outside
`[\w\-./]`, truncate to 200, fall back to `"image"`.  Python's `\w` is
modelled over the ASCII range (alphanumeric or underscore); the embedding
works character-wise on the string's character list. -/
def isWordChar (c : Char) : Bool := c.isAlphanum || c = '_'

/-- A character kept by `_sanitize_key`: `\w`, `-`, `.` or `/`. -/
def s3KeyCharOk (c : Char) : Bool := isWordChar c || c = '-' || c = '.' || c = '/'

/-- The character pipeline of `_sanitize_key`: spaces to underscores, keep
only `[\w\-./]`, truncate to 200. -/
def sanitizeChars (key : String) : List Char :=
  ((key.toList.map (fun c => if c = ' ' then '_' else c)).filter s3KeyCharOk).take 200

/-- `_sanitize_key` itself (`key[:200] or "image"`). -/
def sanitizeKey (key : String) : String :=
  if (sanitizeChars key).isEmpty then "image" else String.mk (sanitizeChars key)

/-- The state of an `S3Backend` after `__init__` (field `prefix` renamed to
`keyPfx` for Lean): the CloudFront domain is right-stripped of slashes and
given an `https://` scheme when it has no `http` one, and a non-empty prefix
is normalised to `prefix.strip('/') + '/'` left-stripped of slashes. -/
structure S3State where
  region : String
  bucket : String
  cloudfrontDomain : String
  keyPfx : String
  deriving DecidableEq, Repr

/-- `S3Backend.__init__(region, bucket, cloudfront_domain, prefix)`. -/
def mkS3Backend (region bucket cloudfrontDomain pfx : String) : S3State :=
  let d := rstripChar cloudfrontDomain '/'
  let d := if pyStartsWith d "http" then d else "https://" ++ d
  let p := if pfx.isEmpty then "" else lstripChar (stripChar pfx '/' ++ "/") '/'
  ⟨region, bucket, d, p⟩

/-- The key used for the object: generated from the uuid hex (`genHex`
models `uuid.uuid4().hex`) with a content-type-derived extension when no key
is supplied, otherwise the sanitized caller key. -/
def s3ResolvedKey (genHex : String) (key : Option String) (contentType : String) : String :=
  if !truthy key then
    genHex ++ "." ++ (if strContains contentType "jpeg" then "jpg" else "png")
  else sanitizeKey (key.getD "")

/-- The object-key join of `S3Backend.upload_bytes` (lines 141-145):
`"/".join(p for p in parts if p).lstrip("/")` over
`[prefix.rstrip('/')] (+ [folder.strip('/')] if folder) + [key]`. -/
def s3ObjectKey (st : S3State) (folder : Option String) (resolved : String) : String :=
  let parts := [rstripChar st.keyPfx '/']
    ++ (if truthy folder then [stripChar (folder.getD "") '/'] else [])
    ++ [resolved]
  lstripChar (String.intercalate "/" (parts.filter (fun p => !p.isEmpty))) '/'

/-- One `client.put_object` call. -/
structure S3PutCall where
  bucket : String
  objectKey : String
  body : List Nat
  contentType : String
  deriving DecidableEq, Repr

/-- Outcome of `client.put_object`: success or a `ClientError`. -/
inductive S3PutOutcome where
  | putOk
  | clientError (s : String)

/-- The `put_object` call `S3Backend.upload_bytes` issues. -/
def s3PutCallOf (st : S3State) (genHex : String) (data : List Nat)
    (folder key : Option String) (contentType : String) : S3PutCall :=
  ⟨st.bucket, s3ObjectKey st folder (s3ResolvedKey genHex key contentType), data, contentType⟩

/-- `S3Backend.upload_bytes(data, folder, key, content_type)`.  The second
component records the `put_object` calls issued. -/
def s3UploadBytes (st : S3State) (put : S3PutCall → S3PutOutcome) (genHex : String)
    (data : List Nat) (folder key : Option String) (contentType : String) :
    Except PyErr String × List S3PutCall :=
  if st.region.isEmpty then
    (.error (.valueError "AWS_REGION is required when STORAGE_PROVIDER=aws"), [])
  else if st.bucket.isEmpty then
    (.error (.valueError "AWS_S3_BUCKET is required when STORAGE_PROVIDER=aws"), [])
  else if st.cloudfrontDomain.isEmpty || st.cloudfrontDomain = "https://" then
    (.error (.valueError "AWS_CLOUDFRONT_DOMAIN is required when STORAGE_PROVIDER=aws (e.g. d123abc.cloudfront.net or cdn.example.com)"),
      [])
  else
    match put (s3PutCallOf st genHex data folder key contentType) with
    | .clientError m =>
      (.error (.exception ("S3 upload failed: " ++ m)),
        [s3PutCallOf st genHex data folder key contentType])
    | .putOk =>
      (.ok (rstripChar st.cloudfrontDomain '/' ++ "/"
          ++ s3ObjectKey st folder (s3ResolvedKey genHex key contentType)),
        [s3PutCallOf st genHex data folder key contentType])

/-- The configuration values consulted by `get_storage_backend`:
`os.getenv("STORAGE_PROVIDER")` and the `api.config` module constants. -/
structure StorageConfig where
  storageProviderEnv : Option String
  storageProviderCfg : String
  awsRegion : String
  awsBucket : String
  awsCloudfrontDomain : String
  awsPrefix : String
  deriving Repr

/-- The backend object `get_storage_backend` constructs. -/
inductive BackendChoice where
  | cloudinaryBackend
  | s3Backend (st : S3State)
  deriving DecidableEq, Repr

/-- Which backend (or rejection) a selection result denotes. -/
inductive BackendKind where
  | cloudinaryKind
  | awsKind
  | rejectedKind
  deriving DecidableEq, Repr

/-- Classify a selection result. -/
def backendKind : Except PyErr BackendChoice → BackendKind
  | .ok .cloudinaryBackend => .cloudinaryKind
  | .ok (.s3Backend _) => .awsKind
  | .error _ => .rejectedKind

/-- `(provider or os.getenv("STORAGE_PROVIDER") or STORAGE_PROVIDER or
"cloudinary").lower()`. -/
def effectiveProvider (cfg : StorageConfig) (provider : Option String) : String :=
  pyLower ((pyOrChain [provider, cfg.storageProviderEnv, some cfg.storageProviderCfg]).getD "cloudinary")

/-- `get_storage_backend(provider)`. -/
def getStorageBackend (cfg : StorageConfig) (provider : Option String) :
    Except PyErr BackendChoice :=
  let effective := effectiveProvider cfg provider
  if effective = "cloudinary" then .ok .cloudinaryBackend
  else if effective = "aws" then
    .ok (.s3Backend (mkS3Backend cfg.awsRegion cfg.awsBucket cfg.awsCloudfrontDomain cfg.awsPrefix))
  else
    .error (.valueError ("Unknown STORAGE_PROVIDER: " ++ effective
      ++ ". Use \x27cloudinary\x27 or \x27aws\x27."))

/-! ### Shared lemmas -/

theorem params_none_eq (a u : String) :
    screenshotoneParams a u none =
    [("access_key", a), ("url", u), ("response_type", "json"), ("format", "jpeg"),
     ("image_quality", "70"), ("cache", "true"), ("cache_ttl", "2505600"),
     ("fail_if_content_contains", "blocked")] := by
  simp [screenshotoneParams, dictInsert, truthy]

theorem params_someEmpty_eq (a u : String) :
    screenshotoneParams a u (some "") =
    [("access_key", a), ("url", u), ("response_type", "json"), ("format", "jpeg"),
     ("image_quality", "70"), ("cache", "true"), ("cache_ttl", "2505600"),
     ("fail_if_content_contains", "blocked")] := by
  simp [screenshotoneParams, dictInsert, truthy]
  rfl

theorem params_some_eq (a u p : String) (hp : p ≠ "") :
    screenshotoneParams a u (some p) =
    [("access_key", a), ("url", u), ("response_type", "json"), ("format", "jpeg"),
     ("image_quality", "70"), ("cache", "true"), ("cache_ttl", "2505600"),
     ("fail_if_content_contains", "blocked"), ("proxy", p)] := by
  simp [screenshotoneParams, dictInsert, truthy, String.isEmpty_iff, hp]

theorem params_filter_fail_if (a u : String) (proxy : Option String) :
    (screenshotoneParams a u proxy).filter
      (fun kv => kv.1 = "fail_if_content_contains") =
      [("fail_if_content_contains", "blocked")] := by
  cases proxy with
  | none => rw [params_none_eq]; simp
  | some p =>
    by_cases hp : p = ""
    · subst hp; rw [params_someEmpty_eq]; simp
    · rw [params_some_eq a u p hp]; simp

theorem params_get_fail_if (a u : String) (proxy : Option String) :
    dictGet (screenshotoneParams a u proxy) "fail_if_content_contains" = some "blocked" := by
  cases proxy with
  | none => rw [params_none_eq]; simp [dictGet]
  | some p =>
    by_cases hp : p = ""
    · subst hp; rw [params_someEmpty_eq]; simp [dictGet]
    · rw [params_some_eq a u p hp]; simp [dictGet]

theorem params_proxyKey_none (a u : String) (proxy : Option String)
    (h : truthy proxy = false) :
    dictGet (screenshotoneParams a u proxy) "proxy" = none := by
  unfold screenshotoneParams
  rw [h]
  simp [dictInsert, dictGet]

theorem callApi_noKey (env : Env) (http : List (String × String) → HttpOutcome)
    (url : String) (proxy : Option String)
    (h : truthy env.screenshotoneAccessKey = false) :
    callScreenshotoneApi env http url proxy =
      (.error (.valueError "SCREENSHOTONE_ACCESS_KEY not found in environment variables"), none) := by
  unfold callScreenshotoneApi
  rw [h]
  rfl

theorem callApi_key (env : Env) (http : List (String × String) → HttpOutcome)
    (url : String) (proxy : Option String)
    (h : truthy env.screenshotoneAccessKey = true) :
    callScreenshotoneApi env http url proxy =
      (screenshotoneResult http (screenshotoneRequest env url proxy),
        some (screenshotoneRequest env url proxy)) := by
  unfold callScreenshotoneApi
  rw [h]
  rfl

theorem retry_ok (env : Env) (http : List (String × String) → HttpOutcome)
    (url : String) (rnd : Nat) (s : String)
    (h : (basicAttempt env http url rnd).1 = .ok s) :
    getScreenshotUrlWithRetry env http url rnd = (.ok s, [(basicAttempt env http url rnd).2]) := by
  unfold getScreenshotUrlWithRetry
  rw [h]

theorem retry_err_noAdvanced (env : Env) (http : List (String × String) → HttpOutcome)
    (url : String) (rnd : Nat) (e : PyErr)
    (h : (basicAttempt env http url rnd).1 = .error e)
    (hw : truthy env.webUnlockerProxy = false) :
    getScreenshotUrlWithRetry env http url rnd =
      (.error (.exception ("Simple proxy failed and WEB_UNLOCKER_PROXY not found. Original error: "
        ++ e.msg)), [(basicAttempt env http url rnd).2]) := by
  unfold getScreenshotUrlWithRetry
  rw [h, hw]
  rfl

theorem retry_err_advancedErr (env : Env) (http : List (String × String) → HttpOutcome)
    (url : String) (rnd : Nat) (e e2 : PyErr)
    (h : (basicAttempt env http url rnd).1 = .error e)
    (hw : truthy env.webUnlockerProxy = true)
    (h2 : (advancedAttempt env http url (env.webUnlockerProxy.getD "")).1 = .error e2) :
    getScreenshotUrlWithRetry env http url rnd =
      (.error (.exception ("Both simple and advanced proxy attempts failed. Simple proxy error: "
        ++ e.msg ++ ". Advanced proxy error: " ++ e2.msg)),
        [(basicAttempt env http url rnd).2,
          (advancedAttempt env http url (env.webUnlockerProxy.getD "")).2]) := by
  unfold getScreenshotUrlWithRetry
  rw [h, hw, h2]
  rfl

theorem retry_err_advancedOk (env : Env) (http : List (String × String) → HttpOutcome)
    (url : String) (rnd : Nat) (e : PyErr) (s : String)
    (h : (basicAttempt env http url rnd).1 = .error e)
    (hw : truthy env.webUnlockerProxy = true)
    (h2 : (advancedAttempt env http url (env.webUnlockerProxy.getD "")).1 = .ok s) :
    getScreenshotUrlWithRetry env http url rnd =
      (.ok s, [(basicAttempt env http url rnd).2,
        (advancedAttempt env http url (env.webUnlockerProxy.getD "")).2]) := by
  unfold getScreenshotUrlWithRetry
  rw [h, hw, h2]
  rfl

theorem retry_trace_tiers (env : Env) (http : List (String × String) → HttpOutcome)
    (url : String) (rnd : Nat) :
    (getScreenshotUrlWithRetry env http url rnd).2.map TierCall.tier = [Tier.basic] ∨
    (getScreenshotUrlWithRetry env http url rnd).2.map TierCall.tier = [Tier.basic, Tier.advanced] := by
  cases h : (basicAttempt env http url rnd).1 with
  | ok s => rw [retry_ok env http url rnd s h]; left; rfl
  | error e =>
    cases hw : truthy env.webUnlockerProxy with
    | false => rw [retry_err_noAdvanced env http url rnd e h hw]; left; rfl
    | true =>
      cases h2 : (advancedAttempt env http url (env.webUnlockerProxy.getD "")).1 with
      | ok s => rw [retry_err_advancedOk env http url rnd e s h hw h2]; right; rfl
      | error e2 => rw [retry_err_advancedErr env http url rnd e e2 h hw h2]; right; rfl

/-! ### Claim theorems -/

/-- C1: with an explicit caller-supplied proxy, `capture_screenshot_url` makes
exactly one direct `get_screenshot_url` call with that proxy (no tier
fallback, whatever `use_retry` is); without one (retry mode), the trace of
tier attempts is `[basic]` or `[basic, advanced]` — the basic tier is tried
first and never re-attempted, and escalation to the advanced tier happens at
most once: never when the basic attempt succeeds, and exactly once when it
fails with an advanced proxy configured. -/
theorem c1_tiered_retry_policy (env : Env) (http : List (String × String) → HttpOutcome)
    (url p : String) (rnd : Nat) :
    (∀ useRetry : Bool,
      (captureScreenshotUrl env http url (some p) useRetry rnd).2.map TierCall.tier
          = [Tier.direct] ∧
      (captureScreenshotUrl env http url (some p) useRetry rnd).2.map TierCall.proxyArg
          = [some p] ∧
      (captureScreenshotUrl env http url (some p) useRetry rnd).1
          = (getScreenshotUrl env http url (some p)).1) ∧
    ((captureScreenshotUrl env http url none true rnd).2.map TierCall.tier = [Tier.basic] ∨
      (captureScreenshotUrl env http url none true rnd).2.map TierCall.tier
          = [Tier.basic, Tier.advanced]) ∧
    (∀ s, (basicAttempt env http url rnd).1 = .ok s →
      (captureScreenshotUrl env http url none true rnd).2.map TierCall.tier = [Tier.basic]) ∧
    (∀ e, (basicAttempt env http url rnd).1 = .error e →
      truthy env.webUnlockerProxy = true →
      (captureScreenshotUrl env http url none true rnd).2.map TierCall.tier
          = [Tier.basic, Tier.advanced]) := by
  have hc : captureScreenshotUrl env http url none true rnd
      = getScreenshotUrlWithRetry env http url rnd := rfl
  refine ⟨?_, ?_, ?_, ?_⟩
  · intro useRetry
    cases useRetry <;> exact ⟨rfl, rfl, rfl⟩
  · rw [hc]; exact retry_trace_tiers env http url rnd
  · intro s h
    rw [hc, retry_ok env http url rnd s h]
    rfl
  · intro e h hw
    rw [hc]
    cases h2 : (advancedAttempt env http url (env.webUnlockerProxy.getD "")).1 with
    | ok s => rw [retry_err_advancedOk env http url rnd e s h hw h2]; rfl
    | error e2 => rw [retry_err_advancedErr env http url rnd e e2 h hw h2]; rfl

/-- C1 witness: a failing basic attempt with `WEB_UNLOCKER_PROXY` configured
escalates exactly once. -/
theorem c1_tiered_retry_policy_witness :
    (captureScreenshotUrl ⟨some "AK", some "prox", some "unlock"⟩
        (fun _ => .raised "net down") "https://example.com" none true 3).2.map TierCall.tier
      = [Tier.basic, Tier.advanced] :=
  (c1_tiered_retry_policy ⟨some "AK", some "prox", some "unlock"⟩
      (fun _ => .raised "net down") "https://example.com" "p" 3).2.2.2
    (.requestError "net down") rfl rfl

/-- C2: the retry flow violates the fail-fast rule for configuration errors.
With `SCREENSHOTONE_ACCESS_KEY` unset and `WEB_UNLOCKER_PROXY` configured,
the missing-credential `ValueError` is caught by the catch-all handler and
DOES trigger escalation to the advanced tier — the trace holds a basic and
an advanced attempt, and the final error is a generic `Exception` wrapping
the configuration error from both attempts, not the fail-fast `ValueError`
that both `_call_screenshotone_api` and `get_screenshot_url_with_retry`
document for a missing access key. -/
theorem c2_config_error_counterexample :
    (getScreenshotUrlWithRetry ⟨none, some "proxyA", some "unlockerB"⟩
        (fun _ => .raised "unreachable") "https://example.com" 3).2.map TierCall.tier
      = [Tier.basic, Tier.advanced] ∧
    (getScreenshotUrlWithRetry ⟨none, some "proxyA", some "unlockerB"⟩
        (fun _ => .raised "unreachable") "https://example.com" 3).1
      = .error (.exception ("Both simple and advanced proxy attempts failed. Simple proxy error: SCREENSHOTONE_ACCESS_KEY not found in environment variables. Advanced proxy error: SCREENSHOTONE_ACCESS_KEY not found in environment variables")) :=
  ⟨rfl, rfl⟩

/-- General characterisation of the retry flow under a missing
`SCREENSHOTONE_ACCESS_KEY`: every attempt fails before any provider request
is issued and the request always fails — but the configuration error is
retried like any other failure: when `WEB_UNLOCKER_PROXY` is configured it
triggers exactly one escalation to the advanced tier (which fails with the
same configuration error), and only when no advanced proxy is configured
does the request stop after the basic attempt. -/
theorem c2_config_error_escalates (env : Env) (http : List (String × String) → HttpOutcome)
    (url : String) (rnd : Nat)
    (hkey : truthy env.screenshotoneAccessKey = false) :
    (∀ c ∈ (getScreenshotUrlWithRetry env http url rnd).2, c.httpParams = none) ∧
    (∃ e, (getScreenshotUrlWithRetry env http url rnd).1 = Except.error e) ∧
    (getScreenshotUrlWithRetry env http url rnd).2.map TierCall.tier =
      (if truthy env.webUnlockerProxy then [Tier.basic, Tier.advanced] else [Tier.basic]) := by
  have hb1 : (basicAttempt env http url rnd).1
      = .error (.valueError "SCREENSHOTONE_ACCESS_KEY not found in environment variables") := by
    simp [basicAttempt, getScreenshotUrl, callApi_noKey env http url _ hkey, checkUrlResult]
  have hb2 : (basicAttempt env http url rnd).2.httpParams = none := by
    simp [basicAttempt, getScreenshotUrl, callApi_noKey env http url _ hkey]
  cases hw : truthy env.webUnlockerProxy with
  | false =>
    rw [retry_err_noAdvanced env http url rnd _ hb1 hw]
    refine ⟨?_, ⟨_, rfl⟩, rfl⟩
    intro c hcmem
    rw [List.mem_singleton] at hcmem
    rw [hcmem]
    exact hb2
  | true =>
    have ha1 : (advancedAttempt env http url (env.webUnlockerProxy.getD "")).1
        = .error (.valueError "SCREENSHOTONE_ACCESS_KEY not found in environment variables") := by
      simp [advancedAttempt, getScreenshotUrl, callApi_noKey env http url _ hkey, checkUrlResult]
    have ha2 : (advancedAttempt env http url (env.webUnlockerProxy.getD "")).2.httpParams = none := by
      simp [advancedAttempt, getScreenshotUrl, callApi_noKey env http url _ hkey]
    rw [retry_err_advancedErr env http url rnd _ _ hb1 hw ha1]
    refine ⟨?_, ⟨_, rfl⟩, rfl⟩
    intro c hcmem
    rcases List.mem_pair.mp hcmem with hcm | hcm <;> rw [hcm]
    · exact hb2
    · exact ha2

/-- Concrete instance of `c2_config_error_escalates`. -/
theorem c2_config_error_escalates_witness :
    (getScreenshotUrlWithRetry ⟨none, some "proxyA", some "unlockerB"⟩
        (fun _ => .raised "x") "u" 2).2.map TierCall.tier =
      (if truthy (some "unlockerB") then [Tier.basic, Tier.advanced] else [Tier.basic]) :=
  (c2_config_error_escalates ⟨none, some "proxyA", some "unlockerB"⟩
    (fun _ => .raised "x") "u" 2 rfl).2.2

/-- C5: when the basic attempt fails, the final error combines both contexts:
with no advanced proxy configured, the raised message embeds the basic-tier
error message and the missing-configuration text; when the advanced attempt
is made and also fails, the raised message embeds both attempts' error
messages. -/
theorem c5_combined_failure_context (env : Env) (http : List (String × String) → HttpOutcome)
    (url : String) (rnd : Nat) (e : PyErr)
    (hbasic : (basicAttempt env http url rnd).1 = .error e) :
    (truthy env.webUnlockerProxy = false →
      (getScreenshotUrlWithRetry env http url rnd).1 =
        .error (.exception ("Simple proxy failed and WEB_UNLOCKER_PROXY not found. Original error: "
          ++ e.msg)) ∧
      ContainsSub ("Simple proxy failed and WEB_UNLOCKER_PROXY not found. Original error: "
        ++ e.msg) e.msg ∧
      ContainsSub ("Simple proxy failed and WEB_UNLOCKER_PROXY not found. Original error: "
        ++ e.msg) "WEB_UNLOCKER_PROXY not found") ∧
    (∀ e2 : PyErr, truthy env.webUnlockerProxy = true →
      (advancedAttempt env http url (env.webUnlockerProxy.getD "")).1 = .error e2 →
      (getScreenshotUrlWithRetry env http url rnd).1 =
        .error (.exception ("Both simple and advanced proxy attempts failed. Simple proxy error: "
          ++ e.msg ++ ". Advanced proxy error: " ++ e2.msg)) ∧
      ContainsSub ("Both simple and advanced proxy attempts failed. Simple proxy error: "
        ++ e.msg ++ ". Advanced proxy error: " ++ e2.msg) e.msg ∧
      ContainsSub ("Both simple and advanced proxy attempts failed. Simple proxy error: "
        ++ e.msg ++ ". Advanced proxy error: " ++ e2.msg) e2.msg) := by
  constructor
  · intro hw
    rw [retry_err_noAdvanced env http url rnd e hbasic hw]
    refine ⟨rfl, ⟨"Simple proxy failed and WEB_UNLOCKER_PROXY not found. Original error: ", "", ?_⟩,
      ⟨"Simple proxy failed and ", ". Original error: " ++ e.msg, ?_⟩⟩
    · rw [String.append_empty]
    · rfl
  · intro e2 hw hadv
    rw [retry_err_advancedErr env http url rnd e e2 hbasic hw hadv]
    refine ⟨rfl,
      ⟨"Both simple and advanced proxy attempts failed. Simple proxy error: ",
        ". Advanced proxy error: " ++ e2.msg, ?_⟩,
      ⟨"Both simple and advanced proxy attempts failed. Simple proxy error: "
        ++ e.msg ++ ". Advanced proxy error: ", "", ?_⟩⟩
    · rw [String.append_assoc, String.append_assoc]
    · rw [String.append_empty]

/-- C5 witness: both attempts fail with a network error; the final message
embeds both. -/
theorem c5_combined_failure_context_witness :
    (getScreenshotUrlWithRetry ⟨some "AK", some "p", some "unlock"⟩
        (fun _ => .raised "net down") "u" 2).1 =
      .error (.exception "Both simple and advanced proxy attempts failed. Simple proxy error: net down. Advanced proxy error: net down") :=
  (((c5_combined_failure_context ⟨some "AK", some "p", some "unlock"⟩
      (fun _ => .raised "net down") "u" 2 (.requestError "net down") rfl).2
    (.requestError "net down") rfl rfl).1)

/-- C9: when `SCREENSHOTONE_PROXY` is configured, the basic-tier attempt of
the retry flow (its first `get_screenshot_url` call) carries the configured
proxy with a random `:{n}` suffix appended — never the configured string
verbatim, and two draws of the random number give different proxy arguments;
when it is unset, the basic-tier attempt is made with no proxy argument and
no `proxy` request parameter at all.  `rnd` models `random.randint(1, 10)`,
whose value lies in 1..10 inclusive. -/
theorem c9_basic_proxy_random_suffix (env : Env) (http : List (String × String) → HttpOutcome)
    (url : String) (rnd : Nat) (hlo : 1 ≤ rnd) (hhi : rnd ≤ 10) :
    (getScreenshotUrlWithRetry env http url rnd).2.head? = some (basicAttempt env http url rnd).2 ∧
    (∀ p : String, env.screenshotoneProxy = some p → p ≠ "" →
      (basicAttempt env http url rnd).2.proxyArg = some (p ++ ":" ++ Nat.repr rnd) ∧
      p ++ ":" ++ Nat.repr rnd ≠ p ∧
      basicProxyWithRandom env 1 ≠ basicProxyWithRandom env 2) ∧
    (truthy env.screenshotoneProxy = false →
      (basicAttempt env http url rnd).2.proxyArg = none ∧
      ∀ params, (basicAttempt env http url rnd).2.httpParams = some params →
        dictGet params "proxy" = none) := by
  refine ⟨?_, ?_, ?_⟩
  · cases h : (basicAttempt env http url rnd).1 with
    | ok s => rw [retry_ok env http url rnd s h]; rfl
    | error e =>
      cases hw : truthy env.webUnlockerProxy with
      | false => rw [retry_err_noAdvanced env http url rnd e h hw]; rfl
      | true =>
        cases h2 : (advancedAttempt env http url (env.webUnlockerProxy.getD "")).1 with
        | ok s => rw [retry_err_advancedOk env http url rnd e s h hw h2]; rfl
        | error e2 => rw [retry_err_advancedErr env http url rnd e e2 h hw h2]; rfl
  · intro p hp hpne
    have hbp : ∀ n : Nat, basicProxyWithRandom env n = some (p ++ ":" ++ Nat.repr n) := by
      intro n
      simp [basicProxyWithRandom, truthy, hp, String.isEmpty_iff, hpne]
    refine ⟨hbp rnd, ?_, ?_⟩
    · intro hEq
      have hlen := congrArg String.length hEq
      rw [String.length_append, String.length_append] at hlen
      have hone : (":" : String).length = 1 := rfl
      rw [hone] at hlen
      omega
    · rw [hbp 1, hbp 2]
      intro hEq
      have hdata := congrArg String.data (Option.some.inj hEq)
      rw [String.data_append (p ++ ":") (Nat.repr 1),
        String.data_append (p ++ ":") (Nat.repr 2)] at hdata
      exact absurd (List.append_cancel_left hdata) (by decide)
  · intro hfalse
    have hbp : basicProxyWithRandom env rnd = none := by
      simp [basicProxyWithRandom, hfalse]
    refine ⟨hbp, ?_⟩
    intro params hparams
    rw [show (basicAttempt env http url rnd).2.httpParams
        = (callScreenshotoneApi env http url (basicProxyWithRandom env rnd)).2 from rfl,
      hbp] at hparams
    cases hkey : truthy env.screenshotoneAccessKey with
    | false =>
      rw [callApi_noKey env http url none hkey] at hparams
      exact absurd hparams (by simp)
    | true =>
      rw [callApi_key env http url none hkey] at hparams
      rw [← Option.some.inj hparams]
      exact params_proxyKey_none _ _ _ hfalse

/-- C9 witness: with a configured basic proxy and draw 7, the basic attempt
uses `prox:7`. -/
theorem c9_basic_proxy_random_suffix_witness :
    (basicAttempt ⟨some "AK", some "prox", none⟩ (fun _ => .raised "x") "u" 7).2.proxyArg
      = some "prox:7" :=
  ((c9_basic_proxy_random_suffix ⟨some "AK", some "prox", none⟩ (fun _ => .raised "x") "u" 7
      (by decide) (by decide)).2.1 "prox" rfl (by decide)).1

/-- C10: the request-parameter dict holds exactly one
`fail_if_content_contains` entry with value `blocked` — the
`Verify you are human` guard written first in the dict literal is overwritten
by the duplicated key — and every params list actually issued by
`_call_screenshotone_api` has that property. -/
theorem c10_duplicate_fail_if_key (accessKey url : String) (proxy : Option String) :
    (screenshotoneParams accessKey url proxy).filter
        (fun kv => kv.1 = "fail_if_content_contains") =
      [("fail_if_content_contains", "blocked")] ∧
    dictGet (screenshotoneParams accessKey url proxy) "fail_if_content_contains"
      = some "blocked" ∧
    (∀ (env : Env) (http : List (String × String) → HttpOutcome) (proxy2 : Option String)
        (ps : List (String × String)),
      (callScreenshotoneApi env http url proxy2).2 = some ps →
      ps.filter (fun kv => kv.1 = "fail_if_content_contains") =
        [("fail_if_content_contains", "blocked")]) := by
  refine ⟨params_filter_fail_if accessKey url proxy, params_get_fail_if accessKey url proxy, ?_⟩
  intro env http proxy2 ps hps
  cases hkey : truthy env.screenshotoneAccessKey with
  | false =>
    rw [callApi_noKey env http url proxy2 hkey] at hps
    exact absurd hps (by simp)
  | true =>
    rw [callApi_key env http url proxy2 hkey] at hps
    rw [← Option.some.inj hps]
    exact params_filter_fail_if _ _ _

/-- C10 witness: the issued params of a concrete call filter to the single
`blocked` entry. -/
theorem c10_duplicate_fail_if_key_witness :
    (screenshotoneRequest ⟨some "AK", none, none⟩ "https://example.com" none).filter
        (fun kv => kv.1 = "fail_if_content_contains") =
      [("fail_if_content_contains", "blocked")] :=
  (c10_duplicate_fail_if_key "AK" "https://example.com" none).2.2
    ⟨some "AK", none, none⟩ (fun _ => .raised "x") none _ rfl

theorem zenValidate_ok_shape (content : List Nat) (text : String) (bs : List Nat)
    (h : zenValidate content text = .ok bs) :
    bs ≠ [] ∧ bs.head? ≠ some 0x7b ∧ bs.head? ≠ some 0x3c := by
  unfold zenValidate at h
  split at h
  · simp at h
  · rename_i hemp
    split at h
    · simp at h
    · rename_i hcond
      have hbs : content = bs := by simpa using h
      subst hbs
      refine ⟨?_, ?_, ?_⟩
      · intro hnil
        rw [hnil] at hemp
        exact hemp rfl
      · intro h7b
        apply hcond
        cases content with
        | nil => simp at h7b
        | cons b tl =>
          have hb : b = 0x7b := by simpa using h7b
          subst hb
          simp [jpegMagic, pngMagic, List.isPrefixOf]
      · intro h3c
        apply hcond
        cases content with
        | nil => simp at h3c
        | cons b tl =>
          have hb : b = 0x3c := by simpa using h3c
          subst hb
          simp [jpegMagic, pngMagic, List.isPrefixOf]

theorem zenCapture_ok_shape (zenv : ZenEnv) (http : ZenHttp) (bs : List Nat)
    (h : captureScreenshotWithZenrows zenv http = .ok bs) :
    bs ≠ [] ∧ bs.head? ≠ some 0x7b ∧ bs.head? ≠ some 0x3c := by
  unfold captureScreenshotWithZenrows at h
  split at h
  · simp at h
  · split at h
    · simp at h
    · rename_i status content text
      unfold zenResponseResult at h
      split at h
      · simp at h
      · exact zenValidate_ok_shape content text bs h

theorem zenValidate_reject (content : List Nat) (text : String)
    (hhead : content.head? = some 0x7b ∨ content.head? = some 0x3c) :
    zenValidate content text =
      .error (.valueError ("ZenRows API returned an error instead of an image: "
        ++ text.take 500)) := by
  have hcnil : content ≠ [] := by
    intro hnil
    rw [hnil] at hhead
    simp at hhead
  have hcond : (!(jpegMagic.isPrefixOf content || pngMagic.isPrefixOf content)
      && ((content.head? == some 0x7b) || (content.head? == some 0x3c))) = true := by
    cases content with
    | nil => exact absurd rfl hcnil
    | cons b tl =>
      rcases hhead with hb | hb
      · have hbv : b = 0x7b := by simpa using hb
        subst hbv
        simp [jpegMagic, pngMagic, List.isPrefixOf]
      · have hbv : b = 0x3c := by simpa using hb
        subst hbv
        simp [jpegMagic, pngMagic, List.isPrefixOf]
  unfold zenValidate
  rw [if_neg (by simp [List.isEmpty_iff, hcnil]), if_pos hcond]

theorem zenCapture_response_eq (zenv : ZenEnv) (status : Nat) (content : List Nat)
    (text : String) (hkey : truthy zenv.zenrowsApiKey = true) :
    captureScreenshotWithZenrows zenv (.response status content text)
      = zenResponseResult status content text := by
  unfold captureScreenshotWithZenrows
  rw [hkey]
  rfl

theorem zenResponse_200_eq (content : List Nat) (text : String) :
    zenResponseResult 200 content text = zenValidate content text := by
  unfold zenResponseResult
  rw [if_neg (by simp)]

theorem uploadImageFromBytes_calls (cenv : CloudinaryEnv) (uploader : UploadCall → UploaderOutcome)
    (imageBytes : List Nat) (folder publicId : Option String) :
    ∀ c ∈ (uploadImageFromBytes cenv uploader imageBytes folder publicId).2,
      c = uploadCallOf imageBytes folder publicId := by
  intro c hc
  unfold uploadImageFromBytes at hc
  split at hc
  · simp at hc
  · split at hc
    · rw [List.mem_singleton] at hc; exact hc
    · split at hc <;> (rw [List.mem_singleton] at hc; exact hc)

theorem ifTruthySome (s : String) :
    (if truthy (some s) then some s else none) =
      (if s.isEmpty then none else some s) := by
  by_cases hs : s.isEmpty = true <;> simp [truthy, hs]

theorem uploadCallOf_publicId (b : List Nat) (f p : Option String) :
    (uploadCallOf b f p).publicIdOpt = if truthy p then p else none := rfl

theorem uploadCallOf_bytes (b : List Nat) (f p : Option String) :
    (uploadCallOf b f p).imageBytes = b := rfl

theorem uploadScreenshotFromUrl_calls (cenv : CloudinaryEnv) (fe : Option String)
    (d : DownloadOutcome) (up : UploadCall → UploaderOutcome)
    (imageUrl : String) (folder df : Option String) :
    ∀ c ∈ (uploadScreenshotFromUrl cenv fe d up imageUrl folder df).2,
      c.publicIdOpt = (if (pySlug imageUrl).isEmpty then none else some (pySlug imageUrl)) := by
  intro c hc
  unfold uploadScreenshotFromUrl at hc
  split at hc
  · simp at hc
  · split at hc
    · simp at hc
    · rename_i status content
      split at hc
      · simp at hc
      · have hmem : c ∈ (uploadImageFromBytes cenv up content
            (resolvedUploadFolder fe folder df) (some (pySlug imageUrl))).2 := by
          split at hc <;> exact hc
        have h3 := uploadImageFromBytes_calls cenv up content
          (resolvedUploadFolder fe folder df) (some (pySlug imageUrl)) c hmem
        rw [h3, uploadCallOf_publicId]
        exact ifTruthySome (pySlug imageUrl)

theorem zenUpload_calls (zenv : ZenEnv) (cenv : CloudinaryEnv) (http : ZenHttp)
    (uploader : UploadCall → UploaderOutcome) (url : String) (folder : Option String) :
    ∀ c ∈ (captureAndUploadWithZenrows zenv cenv http uploader url folder).2,
      captureScreenshotWithZenrows zenv http = .ok c.imageBytes ∧
      c.publicIdOpt = (if (pySlug url).isEmpty then none else some (pySlug url)) := by
  intro c hc
  unfold captureAndUploadWithZenrows at hc
  cases hcap : captureScreenshotWithZenrows zenv http <;> rw [hcap] at hc
  · simp at hc
  · rename_i bs
    have h3 := uploadImageFromBytes_calls cenv uploader bs folder (some (pySlug url)) c hc
    rw [h3, uploadCallOf_publicId, uploadCallOf_bytes]
    exact ⟨rfl, ifTruthySome (pySlug url)⟩

/-- C3 counterexample: bytes beginning with `GIF8` (neither the JPEG nor the
PNG magic) are not rejected — the ZenRows flow logs a warning, returns them,
and uploads them, producing an upload result from bytes that failed the
magic-byte check. -/
theorem c3_magic_gate_counterexample :
    (captureAndUploadWithZenrows ⟨some "zk"⟩ ⟨some "cn", some "ck", some "cs"⟩
        (.response 200 [0x47, 0x49, 0x46, 0x38] "GIF8")
        (fun _ => .result (some "https://res.cloudinary.com/demo.gif") none)
        "https://example.com/a" none).1 = .ok "https://res.cloudinary.com/demo.gif" ∧
    (captureAndUploadWithZenrows ⟨some "zk"⟩ ⟨some "cn", some "ck", some "cs"⟩
        (.response 200 [0x47, 0x49, 0x46, 0x38] "GIF8")
        (fun _ => .result (some "https://res.cloudinary.com/demo.gif") none)
        "https://example.com/a" none).2.map UploadCall.imageBytes
      = [[0x47, 0x49, 0x46, 0x38]] ∧
    jpegMagic.isPrefixOf [0x47, 0x49, 0x46, 0x38] = false ∧
    pngMagic.isPrefixOf [0x47, 0x49, 0x46, 0x38] = false :=
  ⟨rfl, rfl, by decide, by decide⟩

/-- C3 (amended): the ZenRows flow only blocks the upload when the returned
bytes are empty or look like a JSON/HTML error body (first byte `{` or `<`);
every byte buffer that reaches an upload call is non-empty and does not start
with those bytes (JPEG/PNG payloads qualify, but so does any other payload,
which is passed through with only a warning). -/
theorem c3_upload_gating (zenv : ZenEnv) (cenv : CloudinaryEnv) (http : ZenHttp)
    (uploader : UploadCall → UploaderOutcome) (url : String) (folder : Option String) :
    (∀ c ∈ (captureAndUploadWithZenrows zenv cenv http uploader url folder).2,
      captureScreenshotWithZenrows zenv http = .ok c.imageBytes ∧
      c.imageBytes ≠ [] ∧ c.imageBytes.head? ≠ some 0x7b ∧ c.imageBytes.head? ≠ some 0x3c) ∧
    (∀ status content text, http = ZenHttp.response status content text → status = 200 →
      (content.head? = some 0x7b ∨ content.head? = some 0x3c) →
      (captureAndUploadWithZenrows zenv cenv http uploader url folder).2 = [] ∧
      ∃ e, (captureAndUploadWithZenrows zenv cenv http uploader url folder).1
        = Except.error e) := by
  constructor
  · intro c hc
    have hz := (zenUpload_calls zenv cenv http uploader url folder c hc).1
    exact ⟨hz, zenCapture_ok_shape zenv http c.imageBytes hz⟩
  · intro status content text hhttp h200 hhead
    subst hhttp
    subst h200
    have hcap : ∃ e, captureScreenshotWithZenrows zenv (.response 200 content text)
        = .error e := by
      cases hkey : truthy zenv.zenrowsApiKey with
      | false =>
        refine ⟨.valueError "ZENROWS_API_KEY not found in environment variables", ?_⟩
        unfold captureScreenshotWithZenrows
        rw [hkey]
        rfl
      | true =>
        refine ⟨.valueError ("ZenRows API returned an error instead of an image: "
          ++ text.take 500), ?_⟩
        rw [zenCapture_response_eq zenv 200 content text hkey, zenResponse_200_eq]
        exact zenValidate_reject content text hhead
    rcases hcap with ⟨e, he⟩
    unfold captureAndUploadWithZenrows
    rw [he]
    exact ⟨rfl, ⟨e, rfl⟩⟩

/-- C3 witness: a JPEG payload passes the gate and its bytes reach the
upload call unchanged. -/
theorem c3_upload_gating_witness :
    captureScreenshotWithZenrows ⟨some "zk"⟩ (.response 200 [0xff, 0xd8, 0xff, 0x10] "img")
      = .ok (UploadCall.mk [0xff, 0xd8, 0xff, 0x10] none (some "example.com_b")).imageBytes :=
  ((c3_upload_gating ⟨some "zk"⟩ ⟨some "cn", some "ck", some "cs"⟩
      (.response 200 [0xff, 0xd8, 0xff, 0x10] "img")
      (fun _ => .result (some "https://res.cloudinary.com/demo.jpg") none)
      "https://example.com/b" none).1
    ⟨[0xff, 0xd8, 0xff, 0x10], none, some "example.com_b"⟩ (by decide)).1

/-- C4: a 200 ZenRows response whose bytes start with `FF D8 FF` is accepted
as JPEG, one starting with `89 50 4E 47` is accepted as PNG, and one whose
first byte is `{` (0x7b) or `<` (0x3c) is rejected with a `ValueError` whose
message embeds the (truncated) response text instead of returning the
bytes. -/
theorem c4_magic_byte_validation (zenv : ZenEnv)
    (hkey : truthy zenv.zenrowsApiKey = true) (content : List Nat) (text : String) :
    (jpegMagic.isPrefixOf content = true →
      captureScreenshotWithZenrows zenv (.response 200 content text) = .ok content) ∧
    (pngMagic.isPrefixOf content = true →
      captureScreenshotWithZenrows zenv (.response 200 content text) = .ok content) ∧
    ((content.head? = some 0x7b ∨ content.head? = some 0x3c) →
      captureScreenshotWithZenrows zenv (.response 200 content text) =
        .error (.valueError ("ZenRows API returned an error instead of an image: "
          ++ text.take 500)) ∧
      ContainsSub ("ZenRows API returned an error instead of an image: " ++ text.take 500)
        (text.take 500)) := by
  refine ⟨?_, ?_, ?_⟩
  · intro hj
    have hcnil : content ≠ [] := by
      intro hnil; rw [hnil] at hj; simp [jpegMagic] at hj
    rw [zenCapture_response_eq zenv 200 content text hkey, zenResponse_200_eq]
    unfold zenValidate
    rw [if_neg (by simp [List.isEmpty_iff, hcnil]), if_neg (by simp [hj])]
  · intro hp
    have hcnil : content ≠ [] := by
      intro hnil; rw [hnil] at hp; simp [pngMagic] at hp
    rw [zenCapture_response_eq zenv 200 content text hkey, zenResponse_200_eq]
    unfold zenValidate
    rw [if_neg (by simp [List.isEmpty_iff, hcnil]), if_neg (by simp [hp])]
  · intro hhead
    refine ⟨?_, ?_⟩
    · rw [zenCapture_response_eq zenv 200 content text hkey, zenResponse_200_eq]
      exact zenValidate_reject content text hhead
    · exact ⟨"ZenRows API returned an error instead of an image: ", "",
        by rw [String.append_empty]⟩

/-- C4 witness: concrete JPEG acceptance. -/
theorem c4_magic_byte_validation_witness :
    captureScreenshotWithZenrows ⟨some "zk"⟩
        (.response 200 [0xff, 0xd8, 0xff, 0x00] "body") = .ok [0xff, 0xd8, 0xff, 0x00] :=
  (c4_magic_byte_validation ⟨some "zk"⟩ rfl [0xff, 0xd8, 0xff, 0x00] "body").1 (by decide)

/-- C8: the object key (Cloudinary public id) of the fetch-then-relay flow is
a pure function of the source URL — the scheme-stripped, slash-replaced,
100-character-truncated slug — so two runs with the same URL produce the same
key whatever the downloaded bytes, folders, environment or uploader results
are; the ZenRows relay flow derives its key from the same function. -/
theorem c8_deterministic_object_key
    (cenv₁ cenv₂ : CloudinaryEnv) (fe₁ fe₂ : Option String)
    (d₁ d₂ : DownloadOutcome) (up₁ up₂ : UploadCall → UploaderOutcome)
    (url : String) (f₁ f₂ df₁ df₂ : Option String) :
    (∀ c ∈ (uploadScreenshotFromUrl cenv₁ fe₁ d₁ up₁ url f₁ df₁).2,
      c.publicIdOpt = (if (pySlug url).isEmpty then none else some (pySlug url))) ∧
    (∀ c₁ ∈ (uploadScreenshotFromUrl cenv₁ fe₁ d₁ up₁ url f₁ df₁).2,
      ∀ c₂ ∈ (uploadScreenshotFromUrl cenv₂ fe₂ d₂ up₂ url f₂ df₂).2,
        c₁.publicIdOpt = c₂.publicIdOpt) ∧
    (∀ (zenv : ZenEnv) (http : ZenHttp) (uploader : UploadCall → UploaderOutcome)
        (folder : Option String),
      ∀ c ∈ (captureAndUploadWithZenrows zenv cenv₁ http uploader url folder).2,
        c.publicIdOpt = (if (pySlug url).isEmpty then none else some (pySlug url))) := by
  refine ⟨uploadScreenshotFromUrl_calls cenv₁ fe₁ d₁ up₁ url f₁ df₁, ?_, ?_⟩
  · intro c₁ h₁ c₂ h₂
    rw [uploadScreenshotFromUrl_calls cenv₁ fe₁ d₁ up₁ url f₁ df₁ c₁ h₁,
      uploadScreenshotFromUrl_calls cenv₂ fe₂ d₂ up₂ url f₂ df₂ c₂ h₂]
  · intro zenv http uploader folder c hc
    exact (zenUpload_calls zenv cenv₁ http uploader url folder c hc).2

/-- C8 witness: a concrete relay run uploads under the slug of its source
URL. -/
theorem c8_deterministic_object_key_witness :
    (UploadCall.mk [1, 2] none (some "example.com_a_b")).publicIdOpt =
      (if (pySlug "https://example.com/a/b").isEmpty then none
        else some (pySlug "https://example.com/a/b")) :=
  (c8_deterministic_object_key ⟨some "cn", some "ck", some "cs"⟩ ⟨some "cn", some "ck", some "cs"⟩
      none none (.response 200 [1, 2]) (.response 200 [1, 2]) (fun _ => .result none (some "http://u"))
      (fun _ => .result none (some "http://u")) "https://example.com/a/b" none none none none).1
    ⟨[1, 2], none, some "example.com_a_b"⟩ (by decide)

/-- C6: backend selection is a pure function of the effective provider value
(lower-cased first truthy of argument, environment variable, config default):
`cloudinary` selects the Cloudinary backend, `aws` selects the S3 backend,
and any other value fails closed with a `ValueError` naming the value —
never a silent fallback to a built-in backend. -/
theorem c6_backend_selection (cfg : StorageConfig) (provider : Option String) :
    (effectiveProvider cfg provider = "cloudinary" →
      getStorageBackend cfg provider = .ok .cloudinaryBackend) ∧
    (effectiveProvider cfg provider = "aws" →
      getStorageBackend cfg provider =
        .ok (.s3Backend (mkS3Backend cfg.awsRegion cfg.awsBucket cfg.awsCloudfrontDomain
          cfg.awsPrefix))) ∧
    (effectiveProvider cfg provider ≠ "cloudinary" → effectiveProvider cfg provider ≠ "aws" →
      getStorageBackend cfg provider = .error (.valueError ("Unknown STORAGE_PROVIDER: "
        ++ effectiveProvider cfg provider ++ ". Use \x27cloudinary\x27 or \x27aws\x27."))) ∧
    (∀ (cfg₂ : StorageConfig) (provider₂ : Option String),
      effectiveProvider cfg provider = effectiveProvider cfg₂ provider₂ →
      backendKind (getStorageBackend cfg provider)
        = backendKind (getStorageBackend cfg₂ provider₂)) := by
  refine ⟨?_, ?_, ?_, ?_⟩
  · intro h
    unfold getStorageBackend
    rw [if_pos h]
  · intro h
    unfold getStorageBackend
    rw [if_neg (by rw [h]; decide), if_pos h]
  · intro h1 h2
    unfold getStorageBackend
    rw [if_neg h1, if_neg h2]
  · intro cfg₂ provider₂ heq
    unfold getStorageBackend
    rw [← heq]
    by_cases h1 : effectiveProvider cfg provider = "cloudinary"
    · rw [if_pos h1, if_pos h1]
    · rw [if_neg h1, if_neg h1]
      by_cases h2 : effectiveProvider cfg provider = "aws"
      · rw [if_pos h2, if_pos h2]
        rfl
      · rw [if_neg h2, if_neg h2]

/-- C6 witness: an unrecognized name fails closed with the descriptive
error. -/
theorem c6_backend_selection_witness :
    getStorageBackend ⟨none, "cloudinary", "", "", "", ""⟩ (some "gcs") =
      .error (.valueError "Unknown STORAGE_PROVIDER: gcs. Use \x27cloudinary\x27 or \x27aws\x27.") :=
  (c6_backend_selection ⟨none, "cloudinary", "", "", "", ""⟩ (some "gcs")).2.2.1
    (by decide) (by decide)

/-- C7 counterexample: with prefix `shots`, folder `f` and caller key
`/a b`, the object key is `shots/f//a_b` — it contains an underscore (the
claimed character set `alphanumeric, -, ., /` excludes it) and a double
slash (the key segment's own leading slash is not stripped), not the
`shots/f/a_b` the claim predicts. -/
theorem c7_s3_object_key_counterexample :
    (s3UploadBytes (mkS3Backend "us-east-1" "bkt" "cdn.example.com" "shots") (fun _ => .putOk)
        "abc123" [1] (some "f") (some "/a b") "image/jpeg").2 =
      [⟨"bkt", "shots/f//a_b", [1], "image/jpeg"⟩] ∧
    ("shots/f//a_b".toList.contains '_') = true ∧
    "shots/f//a_b" ≠ "shots/f/a_b" ∧
    (s3UploadBytes (mkS3Backend "us-east-1" "bkt" "cdn.example.com" "shots") (fun _ => .putOk)
        "abc123" [1] (some "f") (some "/a b") "image/jpeg").1 =
      .ok "https://cdn.example.com/shots/f//a_b" :=
  ⟨rfl, by decide, by decide, rfl⟩

/-- C7 (amended): the S3 object key joins the slash-stripped prefix, the
slash-stripped folder and the resolved key (each part optional, empty parts
dropped, a leading slash stripped from the join) — the key segment itself is
not slash-stripped; a caller key is sanitized to Python's `\w` class
(alphanumeric or underscore, spaces first becoming underscores) plus `-`,
`.`, `/`, and capped at 200 characters; a missing key becomes the uuid hex
with a content-type-derived extension; the public URL is the CloudFront
domain followed by `/` and the object key. -/
theorem c7_s3_upload_key (st : S3State) (put : S3PutCall → S3PutOutcome) (genHex : String)
    (data : List Nat) (folder key : Option String) (contentType : String)
    (hr : st.region.isEmpty = false) (hb : st.bucket.isEmpty = false)
    (hd1 : st.cloudfrontDomain.isEmpty = false) (hd2 : st.cloudfrontDomain ≠ "https://") :
    (s3UploadBytes st put genHex data folder key contentType).2 =
      [⟨st.bucket, s3ObjectKey st folder (s3ResolvedKey genHex key contentType),
        data, contentType⟩] ∧
    (truthy key = false → s3ResolvedKey genHex key contentType =
      genHex ++ "." ++ (if strContains contentType "jpeg" then "jpg" else "png")) ∧
    (∀ k : String, key = some k → k ≠ "" →
      s3ResolvedKey genHex key contentType = sanitizeKey k) ∧
    (∀ k : String, (sanitizeKey k).length ≤ 200 ∧
      ∀ c ∈ (sanitizeKey k).toList, s3KeyCharOk c = true) ∧
    (∀ u, (s3UploadBytes st put genHex data folder key contentType).1 = .ok u →
      u = rstripChar st.cloudfrontDomain '/' ++ "/"
        ++ s3ObjectKey st folder (s3ResolvedKey genHex key contentType)) := by
  refine ⟨?_, ?_, ?_, ?_, ?_⟩
  · unfold s3UploadBytes
    rw [if_neg (by simp [hr]), if_neg (by simp [hb]), if_neg (by simp [hd1, hd2])]
    split <;> rfl
  · intro hkf
    unfold s3ResolvedKey
    rw [hkf]
    rfl
  · intro k hk hkne
    subst hk
    unfold s3ResolvedKey
    simp [truthy, String.isEmpty_iff, hkne]
  · intro k
    constructor
    · unfold sanitizeKey
      split
      · decide
      · show (sanitizeChars k).length ≤ 200
        unfold sanitizeChars
        simp [List.length_take]
    · intro c hcmem
      unfold sanitizeKey at hcmem
      split at hcmem
      · exact (by decide : ∀ c ∈ ("image" : String).toList, s3KeyCharOk c = true) c hcmem
      · have hmem1 : c ∈ sanitizeChars k := hcmem
        have hmem2 : c ∈ (k.toList.map (fun c => if c = ' ' then '_' else c)).filter s3KeyCharOk :=
          List.mem_of_mem_take hmem1
        exact List.of_mem_filter hmem2
  · intro u hu
    unfold s3UploadBytes at hu
    rw [if_neg (by simp [hr]), if_neg (by simp [hb]), if_neg (by simp [hd1, hd2])] at hu
    split at hu
    · simp at hu
    · exact (Except.ok.inj hu).symm

/-- C7 witness: concrete generated-key upload through the amended shape. -/
theorem c7_s3_upload_key_witness :
    (s3UploadBytes (mkS3Backend "us-east-1" "bkt" "cdn.example.com" "shots") (fun _ => .putOk)
        "abc123" [1] (some "f") none "image/jpeg").2 =
      [⟨"bkt", s3ObjectKey (mkS3Backend "us-east-1" "bkt" "cdn.example.com" "shots") (some "f")
        (s3ResolvedKey "abc123" none "image/jpeg"), [1], "image/jpeg"⟩] :=
  (c7_s3_upload_key (mkS3Backend "us-east-1" "bkt" "cdn.example.com" "shots") (fun _ => .putOk)
    "abc123" [1] (some "f") none "image/jpeg" (by decide) (by decide) (by decide) (by decide)).1

end ScreenshotService
